import Mathlib

set_option autoImplicit false

/-!
Shallow embedding of `src/trak/traker.py` (class `TRAKer`).

Modelling conventions:
* Tensors are lists of rows of exact integers together with a dtype tag.
  Floating-point rounding is abstracted to exact arithmetic; dtype tags are
  tracked because the source moves tensors between dtypes explicitly.
* Python exceptions are modelled by the `PyError` enumeration.  The spec's
  invented error classes (`UnsupportedModeError`, `ShapeMismatchError`) are
  included as constructors so that claims naming them can be stated and
  settled; the source itself defines no such classes.
* `torch` / `functorch` library behaviour reached by the source is modelled
  where the source calls it: `ch.zeros` produces the library default dtype
  `float32`; advanced-index assignment `self.grads[inds] = v` checks the
  value/index shapes before writing (so a failing assignment performs no
  partial write), broadcasts a size-1 leading dimension of the value across
  the index list, and raises `RuntimeError` on a non-broadcastable length
  mismatch and `IndexError` on an out-of-range index; `vmap` over tensors with
  inconsistent leading dimensions raises `ValueError`; using the names
  `grad`/`vmap` when the `functorch` import failed raises `NameError`
  (the import guard at the top of the file only prints a message).
* The model/output-function collaborators are passed as capabilities:
  `outGrad batch i` is the flattened per-sample gradient of the scalar
  output for sample `i` (the composite of `grad(out_fn)` and
  `vectorize_and_ignore_buffers`), `funcModel` is the functional forward
  pass with weights and buffers applied, and `outToLoss` is
  `model_output_fn.get_out_to_loss`.
-/

namespace Trak

/-- Dtype tags for tensors; only the tag is tracked, values stay exact. -/
inductive DType where
  | float16
  | float32
  | float64
  deriving DecidableEq, Repr

/-- Python exception kinds reachable from the featurization code, plus the
spec's two invented error classes so claims naming them are statable. -/
inductive PyError where
  | nameError
  | typeError
  | valueError
  | runtimeError
  | indexError
  | attributeError
  | unsupportedModeError
  | shapeMismatchError
  deriving DecidableEq, Repr

/-- A tensor: a list of rows of exact scalars and a dtype tag.  The leading
(batch) dimension is `data.length`. -/
structure Tensor where
  data : List (List ℤ)
  dtype : DType
  deriving DecidableEq, Repr

/-- `t.to d` models `tensor.to(dtype)`: the dtype tag changes, values are
kept exact (rounding is abstracted away). -/
def Tensor.to (t : Tensor) (d : DType) : Tensor :=
  { t with dtype := d }

/-- `ch.zeros([n, d])` with no dtype argument: all-zero data in the torch
default dtype `float32`. -/
def Tensor.zeros (n d : ℕ) : Tensor :=
  ⟨List.replicate n (List.replicate d (0 : ℤ)), DType.float32⟩

/-- The projection distribution variants of `trak.projectors.ProjectionType`. -/
inductive ProjectionType where
  | normal
  | rademacher
  deriving DecidableEq, Repr

/-- Modelled from the spec: `trak.projectors` is not under `src/`, only its
caller is.  A projection-matrix entry is a deterministic function of
`(seed, row, column, distribution)`, realised here by a concrete integer
hash; "normal" entries are scaled signed values, "rademacher" entries are
`±1`. -/
def projEntry (seed k j : ℕ) (ty : ProjectionType) : ℤ :=
  let h := (seed * 2654435761 + k * 40503 + j * 9973) % 65536
  match ty with
  | ProjectionType.normal => (h : ℤ) - 32768
  | ProjectionType.rademacher => if h % 2 = 0 then 1 else -1

/-- Modelled from the spec: `trak.projectors.BasicProjector` is not under
`src/`.  It is constructed from `(seed, proj_dim, grad_dim, proj_type,
dtype)` as in the call in `TRAKer.__init__`. -/
structure BasicProjector where
  seed : ℕ
  projDim : ℕ
  gradDim : ℕ
  projType : ProjectionType
  dtype : DType
  deriving DecidableEq, Repr

/-- Modelled from the spec: `Project` applies the fixed random linear map
row-wise, producing a `(B, proj_dim)` matrix in the projector's dtype. -/
def BasicProjector.project (p : BasicProjector) (m : Tensor) : Tensor :=
  ⟨m.data.map (fun row =>
      (List.range p.projDim).map (fun j =>
        ((List.range p.gradDim).map
            (fun k => row.getD k 0 * projEntry p.seed k j p.projType)).sum)),
   p.dtype⟩

/-- The mutable state of a `TRAKer` object: the fields set in
`TRAKer.__init__` that the featurization path reads or writes.  `grads` is
the Feature Store, created by `ch.zeros([train_set_size, proj_dim])`. -/
structure TRAKer where
  gradDtype : DType
  projector : BasicProjector
  trainSetSize : ℕ
  gradDim : ℕ
  lastInd : ℕ
  grads : Tensor
  deriving DecidableEq, Repr

/-- `TRAKer.__init__`: builds the projector from `(proj_seed, proj_dim,
grad_dim, proj_type, grad_dtype)` and the Feature Store by
`ch.zeros([train_set_size, proj_dim])` (torch default dtype). -/
def TRAKer.init (gradDim projDim : ℕ) (projType : ProjectionType)
    (projSeed : ℕ) (trainSetSize : ℕ) (gradDtype : DType) : TRAKer :=
  { gradDtype := gradDtype
    projector :=
      { seed := projSeed
        projDim := projDim
        gradDim := gradDim
        projType := projType
        dtype := gradDtype }
    trainSetSize := trainSetSize
    gradDim := gradDim
    lastInd := 0
    grads := Tensor.zeros trainSetSize projDim }

/-- Sequential row writes: `writeRows s [(i₁,v₁), ...]` models the effect of
`s[inds] = vals` on the CPU, where later assignments to a repeated index
win. -/
def writeRows (s : List (List ℤ)) : List (ℕ × List ℤ) → List (List ℤ)
  | [] => s
  | p :: ps => writeRows (s.set p.1 p.2) ps

/-- The tensor passed to the projector inside `record_grads`:
`grads.to(self.grad_dtype)`. -/
def projInput (t : TRAKer) (g : Tensor) : Tensor :=
  g.to t.gradDtype

/-- Broadcasting of the value in `self.grads[inds] = v`: torch expands a
size-1 leading dimension of the value across the index list, so the single
row is written at every index; any other row count is used as given. -/
def broadcastRows (rows : List (List ℤ)) (n : ℕ) : List (List ℤ) :=
  if rows.length = 1 then List.replicate n (rows.getD 0 []) else rows

/-- `TRAKer.record_grads`: projects `grads.to(self.grad_dtype)` and performs
`self.grads[inds] = projected.detach().clone().cpu()`.  The torch assignment
checks shapes before writing: the value's row count must equal `len(inds)`
or be `1` (in which case the single row is broadcast across the index
list); a non-broadcastable mismatch raises `RuntimeError` and an
out-of-range index raises `IndexError`, in either case without touching the
store; on success the (possibly broadcast) projected rows are written and
cast to the store's own dtype. -/
def TRAKer.record_grads (t : TRAKer) (g : Tensor) (inds : List ℕ) :
    Except PyError TRAKer :=
  let projected := t.projector.project (projInput t g)
  if projected.data.length = inds.length ∨ projected.data.length = 1 then
    if inds.all (fun i => i < t.grads.data.length) then
      Except.ok
        { t with
          grads := ⟨writeRows t.grads.data
                      (inds.zip (broadcastRows projected.data inds.length)),
                    t.grads.dtype⟩ }
    else Except.error PyError.indexError
  else Except.error PyError.runtimeError

/-- The common leading dimension of a batch of tensors, when they agree;
`none` models the batches `vmap` rejects. -/
def commonDim : List Tensor → Option ℕ
  | [] => none
  | t0 :: rest =>
    if rest.all (fun u => u.data.length = t0.data.length) then
      some t0.data.length
    else none

/-- `_featurize_functional`'s gradient computation:
`vmap(grad(out_fn), in_dims=(None, None, 0, ...))` maps the per-sample
gradient capability over the batch dimension; inconsistent leading
dimensions raise `ValueError`.  The resulting autograd output carries the
torch default dtype. -/
def vmapGrads (outGrad : List Tensor → ℕ → List ℤ) (batch : List Tensor) :
    Except PyError Tensor :=
  match commonDim batch with
  | none => Except.error PyError.valueError
  | some b => Except.ok ⟨(List.range b).map (outGrad batch), DType.float32⟩

/-- `_get_loss_grad_functional`: `images, labels = batch` (hardcoded pair
unpacking, `ValueError` otherwise), then
`self.model_output_fn.get_out_to_loss(func_model(weights, buffers, images),
labels)`. -/
def getLossGradFunctional (funcModel : Tensor → Tensor)
    (outToLoss : Tensor → Tensor → Tensor) (batch : List Tensor) :
    Except PyError Tensor :=
  match batch with
  | [images, labels] => Except.ok (outToLoss (funcModel images) labels)
  | _ => Except.error PyError.valueError

/-- The execution environment: whether the guarded
`from functorch import make_functional_with_buffers, grad, vmap`
succeeded. -/
structure Env where
  functorchAvailable : Bool
  deriving DecidableEq, Repr

/-- `TRAKer.featurize`.  The functional branch runs
`_featurize_functional` (gradient extraction, then `record_grads`) and then
`_get_loss_grad_functional`, binds the result to a local that is dropped,
and falls off the end of the function (returns `None`).  When the
`functorch` import failed, the first use of the undefined name `grad`
raises `NameError`.  The non-functional branch calls
`_featurize_iter(out_fn, model, batch, inds)`, whose fourth positional
parameter is `batch_size`; with a list bound to `batch_size`,
`ch.zeros(batch_size, self.grad_dim)` raises `TypeError` before anything
else happens (and even with a correct batch size, `_featurize_iter` returns
its gradient matrix without recording it, after which
`self._get_loss_grad_iter`, which does not exist, would raise
`AttributeError`).  The `loss_fn` argument is accepted and never used.  The
pair returned by the model is `(state after the call, outcome)`, so that
mutations that precede a raised exception remain visible. -/
def TRAKer.featurize (env : Env) (t : TRAKer)
    (outGrad : List Tensor → ℕ → List ℤ) (_loss_fn : Tensor → Tensor → Tensor)
    (funcModel : Tensor → Tensor) (outToLoss : Tensor → Tensor → Tensor)
    (batch : List Tensor) (inds : List ℕ) (functional : Bool) :
    TRAKer × Except PyError (Option Tensor) :=
  if functional then
    if env.functorchAvailable then
      match vmapGrads outGrad batch with
      | Except.error e => (t, Except.error e)
      | Except.ok grads =>
        match t.record_grads grads inds with
        | Except.error e => (t, Except.error e)
        | Except.ok t' =>
          match getLossGradFunctional funcModel outToLoss batch with
          | Except.error e => (t', Except.error e)
          | Except.ok _lossGrads => (t', Except.ok none)
    else (t, Except.error PyError.nameError)
  else (t, Except.error PyError.typeError)

/-!
Symbolic-differentiation model for comparing the two extraction strategies
(`_featurize_functional` vs `_featurize_iter`).  The scalar model output for
one sample is an arithmetic expression in the `n` flattened parameters; the
external autodiff engine (`functorch.grad` / `torch.autograd.grad`) is
modelled by symbolic partial differentiation of that expression.
-/

/-- Arithmetic expressions in `n` parameter variables. -/
inductive Expr (n : ℕ) where
  | const : ℤ → Expr n
  | var : Fin n → Expr n
  | add : Expr n → Expr n → Expr n
  | mul : Expr n → Expr n → Expr n
  deriving DecidableEq

/-- Evaluation at a parameter vector. -/
def Expr.eval {n : ℕ} (w : Fin n → ℤ) : Expr n → ℤ
  | Expr.const c => c
  | Expr.var i => w i
  | Expr.add a b => a.eval w + b.eval w
  | Expr.mul a b => a.eval w * b.eval w

/-- Symbolic partial derivative with respect to parameter `j`. -/
def Expr.pd {n : ℕ} (j : Fin n) : Expr n → Expr n
  | Expr.const _ => Expr.const 0
  | Expr.var i => if i = j then Expr.const 1 else Expr.const 0
  | Expr.add a b => Expr.add (a.pd j) (b.pd j)
  | Expr.mul a b => Expr.add (Expr.mul (a.pd j) b) (Expr.mul a (b.pd j))

/-- The flattened gradient of a scalar output with respect to the full
parameter vector, evaluated at `w` (what `parameters_to_vector` of the
autograd result, or `vectorize_and_ignore_buffers`, produces). -/
def gradVec {n : ℕ} (e : Expr n) (w : Fin n → ℤ) : List ℤ :=
  (List.finRange n).map (fun j => (e.pd j).eval w)

/-- The batched strategy (`_featurize_functional`): `grad(out_fn)` is
vmapped over the batch dimension, so row `i` is the gradient of the output
expression of sample `i` alone. -/
def featurizeFunctionalGrads {n : ℕ} {S : Type} (out_fn : S → Expr n)
    (w : Fin n → ℤ) (batch : List S) : List (List ℤ) :=
  batch.map (fun s => gradVec (out_fn s) w)

/-- The iterative strategy (`_featurize_iter` with its `batch_size`
parameter left at `None`): `margin = out_fn(model, batch)` is computed once
with the batched output function, then for each `ind` below
`batch[0].size(0)` the scalar `margin[ind]` is backpropagated and the
flattened gradient becomes row `ind`. -/
def featurizeIterGrads {n : ℕ} {S : Type}
    (out_fnB : List S → List (Expr n)) (w : Fin n → ℤ) (batch : List S) :
    List (List ℤ) :=
  let batchSize := batch.length
  let margin := out_fnB batch
  (List.range batchSize).map
    (fun ind => gradVec (margin.getD ind (Expr.const 0)) w)

/-!
Concrete fixtures used by the closed theorems, counterexamples and
witnesses.  `exTraker` matches the source's call pattern with
`grad_dim = 1`, `proj_dim = 1`, a Rademacher projection with seed 0 (whose
single matrix entry evaluates to `1`, so projection is transparent on these
fixtures), `train_set_size = 2` and the default `grad_dtype = float16`;
`exBatch` is a two-sample `(images, labels)` batch.
-/

def exTraker : TRAKer :=
  TRAKer.init 1 1 ProjectionType.rademacher 0 2 DType.float16

def exImages : Tensor := ⟨[[1], [2]], DType.float32⟩

def exLabels : Tensor := ⟨[[0], [1]], DType.float32⟩

def exBatch : List Tensor := [exImages, exLabels]

/-- A batch whose two tensors have leading dimensions 2 and 1. -/
def exBadBatch : List Tensor := [exImages, ⟨[[0]], DType.float32⟩]

/-- A one-sample `(images, labels)` batch, used to exhibit torch's size-1
broadcast on index assignment when `inds` is longer than the batch. -/
def exBroadcastBatch : List Tensor :=
  [⟨[[1]], DType.float32⟩, ⟨[[0]], DType.float32⟩]

def exOutGrad : List Tensor → ℕ → List ℤ := fun _ _ => [1]

def exFn2 : Tensor → Tensor → Tensor := fun a _ => a

def exFn1 : Tensor → Tensor := fun a => a

def exGrads1 : Tensor := ⟨[[1], [1]], DType.float32⟩

def exGrads2 : Tensor := ⟨[[2], [3]], DType.float32⟩

/-- `exTraker` after recording `exGrads1` at indices `[0, 1]`. -/
def exTraker1 : TRAKer :=
  { exTraker with grads := ⟨[[1], [1]], DType.float32⟩ }

/-- `exTraker` after recording `exGrads2` at indices `[0, 1]`. -/
def exTraker2 : TRAKer :=
  { exTraker with grads := ⟨[[2], [3]], DType.float32⟩ }

/-- The spec's §8 example scenario scaled to unit dimensions:
`train_set_size = 5`, record at indices `[3, 4]`. -/
def c6Traker : TRAKer :=
  TRAKer.init 1 1 ProjectionType.rademacher 0 5 DType.float16

def c6Grads : Tensor := ⟨[[1], [1]], DType.float32⟩

/-- `c6Traker` after recording `c6Grads` at `[3, 4]`: rows 0, 1, 2 stay
zero. -/
def c6Traker' : TRAKer :=
  { c6Traker with grads := ⟨[[0], [0], [0], [1], [1]], DType.float32⟩ }

/-- A per-sample model output for the strategy-equivalence fixture:
`out_fn(w, s) = w₀ · w₁ · s` for a scalar sample `s`. -/
def c2OutFn : ℤ → Expr 2 :=
  fun s => Expr.mul (Expr.var 0) (Expr.mul (Expr.var 1) (Expr.const s))

/-- The batched form of `c2OutFn`, as `_featurize_iter` consumes it. -/
def c2OutFnB : List ℤ → List (Expr 2) := fun b => b.map c2OutFn

def c2W : Fin 2 → ℤ := fun i => if i = 0 then 2 else 3

def c2Batch : List ℤ := [5, 7]

/-! Helper lemmas about row writes and the two state-passing operations. -/

theorem writeRows_length (ps : List (ℕ × List ℤ)) (s : List (List ℤ)) :
    (writeRows s ps).length = s.length := by
  induction ps generalizing s with
  | nil => rfl
  | cons p ps ih => rw [writeRows, ih, List.length_set]

theorem writeRows_getElem?_of_not_mem (ps : List (ℕ × List ℤ))
    (s : List (List ℤ)) (j : ℕ) (hj : j ∉ ps.map Prod.fst) :
    (writeRows s ps)[j]? = s[j]? := by
  induction ps generalizing s with
  | nil => rfl
  | cons p ps ih =>
    simp only [List.map_cons, List.mem_cons, not_or] at hj
    rw [writeRows, ih _ hj.2, List.getElem?_set_ne (fun h => hj.1 h.symm)]

theorem writeRows_congr (ps : List (ℕ × List ℤ)) (s t : List (List ℤ))
    (hlen : s.length = t.length)
    (hoff : ∀ j, j ∉ ps.map Prod.fst → s[j]? = t[j]?) :
    writeRows s ps = writeRows t ps := by
  induction ps generalizing s t with
  | nil => exact List.ext_getElem? (fun j => hoff j (by simp))
  | cons p ps ih =>
    rw [writeRows, writeRows]
    apply ih
    · rw [List.length_set, List.length_set, hlen]
    · intro j hj
      by_cases hij : p.1 = j
      · subst hij
        rw [List.getElem?_set, List.getElem?_set]
        simp [hlen]
      · rw [List.getElem?_set_ne hij, List.getElem?_set_ne hij]
        apply hoff
        simp only [List.map_cons, List.mem_cons, not_or]
        exact ⟨fun h => hij h.symm, hj⟩

theorem writeRows_writeRows (ps qs : List (ℕ × List ℤ)) (s : List (List ℤ))
    (hsub : ∀ j, j ∈ ps.map Prod.fst → j ∈ qs.map Prod.fst) :
    writeRows (writeRows s ps) qs = writeRows s qs :=
  writeRows_congr qs _ s (writeRows_length ps s)
    (fun j hj => writeRows_getElem?_of_not_mem ps s j (fun h => hj (hsub j h)))

theorem writeRows_rows_length (ps : List (ℕ × List ℤ)) (s : List (List ℤ))
    (d : ℕ) (hs : ∀ r ∈ s, r.length = d)
    (hp : ∀ p ∈ ps, (Prod.snd p).length = d) :
    ∀ r ∈ writeRows s ps, r.length = d := by
  induction ps generalizing s with
  | nil => exact hs
  | cons p ps ih =>
    rw [writeRows]
    apply ih
    · intro r hr
      rcases List.mem_or_eq_of_mem_set hr with h | h
      · exact hs r h
      · rw [h]; exact hp p (by simp)
    · intro q hq
      exact hp q (by simp [hq])

theorem project_data_length (p : BasicProjector) (m : Tensor) :
    (p.project m).data.length = m.data.length := by
  simp [BasicProjector.project]

theorem project_rows_length (p : BasicProjector) (m : Tensor) :
    ∀ r ∈ (p.project m).data, r.length = p.projDim := by
  intro r hr
  simp only [BasicProjector.project, List.mem_map] at hr
  obtain ⟨row, _, hrow⟩ := hr
  rw [← hrow]
  simp

theorem broadcastRows_length (rows : List (List ℤ)) (n : ℕ)
    (h : rows.length = n ∨ rows.length = 1) :
    (broadcastRows rows n).length = n := by
  unfold broadcastRows
  split_ifs with h1
  · simp
  · rcases h with h | h
    · exact h
    · exact absurd h h1

theorem mem_of_mem_broadcastRows (rows : List (List ℤ)) (n : ℕ)
    (r : List ℤ) (hr : r ∈ broadcastRows rows n) : r ∈ rows := by
  unfold broadcastRows at hr
  split_ifs at hr with h1
  · rcases rows with _ | ⟨a, tl⟩
    · simp at h1
    · rw [List.eq_of_mem_replicate hr]
      simp
  · exact hr

theorem record_grads_ok_iff (t : TRAKer) (g : Tensor) (inds : List ℕ)
    (t' : TRAKer) :
    t.record_grads g inds = Except.ok t' ↔
      ((t.projector.project (projInput t g)).data.length = inds.length ∨
       (t.projector.project (projInput t g)).data.length = 1) ∧
      inds.all (fun i => i < t.grads.data.length) = true ∧
      t' = { t with
             grads := ⟨writeRows t.grads.data
                         (inds.zip (broadcastRows
                           (t.projector.project (projInput t g)).data
                           inds.length)),
                       t.grads.dtype⟩ } := by
  simp only [TRAKer.record_grads]
  split_ifs with h1 h2
  · simp only [Except.ok.injEq]
    constructor
    · intro h
      exact ⟨h1, h2, h.symm⟩
    · intro h
      exact h.2.2.symm
  · simp [h1, h2]
  · simp [h1]

theorem featurize_ok_elim (env : Env) (t : TRAKer)
    (outGrad : List Tensor → ℕ → List ℤ) (lf : Tensor → Tensor → Tensor)
    (fm : Tensor → Tensor) (otl : Tensor → Tensor → Tensor)
    (batch : List Tensor) (inds : List ℕ) (b : Bool) (t' : TRAKer)
    (v : Option Tensor)
    (h : TRAKer.featurize env t outGrad lf fm otl batch inds b
          = (t', Except.ok v)) :
    b = true ∧ env.functorchAvailable = true ∧ v = none ∧
      ∃ grads, vmapGrads outGrad batch = Except.ok grads ∧
        t.record_grads grads inds = Except.ok t' ∧
        ∃ lg, getLossGradFunctional fm otl batch = Except.ok lg := by
  cases b with
  | false => simp [TRAKer.featurize] at h
  | true =>
    cases henv : env.functorchAvailable with
    | false => simp [TRAKer.featurize, henv] at h
    | true =>
      rcases hv : vmapGrads outGrad batch with e | grads
      · simp [TRAKer.featurize, henv, hv] at h
      · rcases hr : t.record_grads grads inds with e | t1
        · simp [TRAKer.featurize, henv, hv, hr] at h
        · rcases hl : getLossGradFunctional fm otl batch with e | lg
          · simp [TRAKer.featurize, henv, hv, hr, hl] at h
          · simp only [TRAKer.featurize, henv, hv, hr, hl, if_true,
              Prod.mk.injEq] at h
            obtain ⟨ht, hok⟩ := h
            refine ⟨rfl, rfl, ?_, grads, rfl, ?_, lg, rfl⟩
            · cases hok; rfl
            · rw [hr, ht]

theorem featurize_eq_of (env : Env) (t t1 : TRAKer)
    (outGrad : List Tensor → ℕ → List ℤ) (lf : Tensor → Tensor → Tensor)
    (fm : Tensor → Tensor) (otl : Tensor → Tensor → Tensor)
    (batch : List Tensor) (inds : List ℕ) (grads lg : Tensor)
    (henv : env.functorchAvailable = true)
    (hv : vmapGrads outGrad batch = Except.ok grads)
    (hr : t.record_grads grads inds = Except.ok t1)
    (hl : getLossGradFunctional fm otl batch = Except.ok lg) :
    TRAKer.featurize env t outGrad lf fm otl batch inds true
      = (t1, Except.ok none) := by
  simp [TRAKer.featurize, henv, hv, hr, hl]

/-- Helper: a successful `_get_loss_grad_functional` forces the batch to be
exactly an `(images, labels)` pair. -/
theorem getLossGrad_ok_pair (fm : Tensor → Tensor)
    (otl : Tensor → Tensor → Tensor) (batch : List Tensor) (lg : Tensor)
    (h : getLossGradFunctional fm otl batch = Except.ok lg) :
    ∃ images labels, batch = [images, labels] := by
  match batch with
  | [] => simp [getLossGradFunctional] at h
  | [a] => simp [getLossGradFunctional] at h
  | [a, b] => exact ⟨a, b, rfl⟩
  | a :: b :: c :: rest => simp [getLossGradFunctional] at h

/-- C7: immediately after construction of the TRAKer, the Feature Store is
exactly all-zero and has shape `(train_set_size, proj_dim)`. -/
theorem store_initialization (gradDim projDim projSeed trainSetSize : ℕ)
    (ty : ProjectionType) (dt : DType) :
    (TRAKer.init gradDim projDim ty projSeed trainSetSize dt).grads.data
        = List.replicate trainSetSize (List.replicate projDim (0 : ℤ)) ∧
    (TRAKer.init gradDim projDim ty projSeed trainSetSize dt).grads.data.length
        = trainSetSize ∧
    ∀ r ∈ (TRAKer.init gradDim projDim ty projSeed trainSetSize dt).grads.data,
      r.length = projDim := by
  refine ⟨rfl, by simp [TRAKer.init, Tensor.zeros], ?_⟩
  intro r hr
  simp only [TRAKer.init, Tensor.zeros, List.mem_replicate] at hr
  simp [hr.2]

/-- C1 (code bug): with the iterative strategy the orchestrator never
reaches `record_grads` — `featurize` passes `inds` into `_featurize_iter`'s
`batch_size` parameter and `ch.zeros(batch_size, self.grad_dim)` raises
`TypeError` (the state is returned untouched); the functional strategy does
complete all three steps on the same input, leaving the projected gradients
in the store rows. -/
theorem featurize_iter_path_broken :
    TRAKer.featurize ⟨true⟩ exTraker exOutGrad exFn2 exFn1 exFn2 exBatch
        [0, 1] false
      = (exTraker, Except.error PyError.typeError) ∧
    TRAKer.featurize ⟨true⟩ exTraker exOutGrad exFn2 exFn1 exFn2 exBatch
        [0, 1] true
      = (exTraker1, Except.ok none) ∧
    exTraker1.grads.data = [[1], [1]] :=
  ⟨rfl, rfl, rfl⟩

/-- C2: on a model/output-function pair compatible with both strategies
(the batched margin is the per-sample outputs, sample by sample), the
iterative per-sample autograd loop computes exactly the matrix the
vmapped functional strategy computes, and row `i` is the gradient of the
output for sample `i` alone — exact equality in the exact-arithmetic
model, hence within any floating-point tolerance. -/
theorem featurize_strategy_equivalence {n : ℕ} {S : Type} (out_fn : S → Expr n)
    (out_fnB : List S → List (Expr n)) (w : Fin n → ℤ) (batch : List S)
    (hcompat : out_fnB batch = batch.map out_fn) :
    featurizeIterGrads out_fnB w batch
        = featurizeFunctionalGrads out_fn w batch ∧
    ∀ (i : ℕ) (s : S), batch[i]? = some s →
      (featurizeFunctionalGrads out_fn w batch)[i]?
        = some (gradVec (out_fn s) w) := by
  constructor
  · simp only [featurizeIterGrads, featurizeFunctionalGrads]
    rw [hcompat]
    apply List.ext_getElem
    · simp
    · intro i h1 h2
      simp only [List.getElem_map, List.getElem_range]
      rw [List.getD_eq_getElem _ _ (by simpa using h2)]
      simp
  · intro i s hs
    simp only [featurizeFunctionalGrads]
    rw [List.getElem?_map, hs]
    rfl

/-- Witness for C2 at the concrete two-sample fixture. -/
theorem featurize_strategy_equivalence_witness :
    c2OutFnB c2Batch = c2Batch.map c2OutFn ∧
    featurizeIterGrads c2OutFnB c2W c2Batch
        = featurizeFunctionalGrads c2OutFn c2W c2Batch ∧
    (featurizeFunctionalGrads c2OutFn c2W c2Batch)[0]?
        = some (gradVec (c2OutFn 5) c2W) :=
  ⟨rfl, (featurize_strategy_equivalence c2OutFn c2OutFnB c2W c2Batch rfl).1,
   (featurize_strategy_equivalence c2OutFn c2OutFnB c2W c2Batch rfl).2 0 5 rfl⟩

/-- C3 counterexample: with `functorch` unavailable, requesting the batched
strategy fails with `NameError` (the undefined name `grad`), not with the
spec's `UnsupportedModeError`. -/
theorem featurize_no_functorch_cex :
    TRAKer.featurize ⟨false⟩ exTraker exOutGrad exFn2 exFn1 exFn2 exBatch
        [0, 1] true
      = (exTraker, Except.error PyError.nameError) ∧
    PyError.nameError ≠ PyError.unsupportedModeError :=
  ⟨rfl, by decide⟩

/-- C3 amended: if the batched strategy is requested while the `functorch`
module failed to load, every `featurize` call fails with `NameError`, the
state is untouched, and the core does not auto-fall back to the iterative
strategy. -/
theorem featurize_no_functorch_name_error (t : TRAKer)
    (outGrad : List Tensor → ℕ → List ℤ) (lf : Tensor → Tensor → Tensor)
    (fm : Tensor → Tensor) (otl : Tensor → Tensor → Tensor)
    (batch : List Tensor) (inds : List ℕ) :
    TRAKer.featurize ⟨false⟩ t outGrad lf fm otl batch inds true
      = (t, Except.error PyError.nameError) := rfl

/-- C4 counterexample: a batch with inconsistent leading dimensions fails
with the library's `ValueError`, and a batch/inds length mismatch fails
with the library's `RuntimeError`; neither failure is the spec's
`ShapeMismatchError`. -/
theorem featurize_shape_mismatch_cex :
    TRAKer.featurize ⟨true⟩ exTraker exOutGrad exFn2 exFn1 exFn2 exBadBatch
        [0] true
      = (exTraker, Except.error PyError.valueError) ∧
    PyError.valueError ≠ PyError.shapeMismatchError ∧
    TRAKer.featurize ⟨true⟩ exTraker exOutGrad exFn2 exFn1 exFn2 exBatch
        [0, 1, 2] true
      = (exTraker, Except.error PyError.runtimeError) ∧
    PyError.runtimeError ≠ PyError.shapeMismatchError :=
  ⟨rfl, by decide, rfl, by decide⟩

/-- C4 amended: a functional `featurize` call on a batch whose tensors do
not share a leading dimension fails with the underlying library's
`ValueError`, and one whose common leading dimension `b` differs from
`inds.length` fails with the underlying library's `RuntimeError` when
`b ≠ 1`; in both failing cases the state — in particular the Feature
Store — is returned exactly as it was (no partial writes).  When `b = 1`
the torch assignment broadcasts the size-1 leading dimension instead of
failing: the call succeeds and writes the single projected row at every
index, as the third conjunct shows on a concrete one-sample batch with
`inds = [0, 1]`. -/
theorem featurize_shape_mismatch_amended (t : TRAKer)
    (outGrad : List Tensor → ℕ → List ℤ) (lf : Tensor → Tensor → Tensor)
    (fm : Tensor → Tensor) (otl : Tensor → Tensor → Tensor)
    (batch : List Tensor) (inds : List ℕ) :
    (commonDim batch = none →
      TRAKer.featurize ⟨true⟩ t outGrad lf fm otl batch inds true
        = (t, Except.error PyError.valueError)) ∧
    (∀ b, commonDim batch = some b → inds.length ≠ b → b ≠ 1 →
      TRAKer.featurize ⟨true⟩ t outGrad lf fm otl batch inds true
        = (t, Except.error PyError.runtimeError)) ∧
    TRAKer.featurize ⟨true⟩ exTraker exOutGrad exFn2 exFn1 exFn2
        exBroadcastBatch [0, 1] true
      = (exTraker1, Except.ok none) := by
  refine ⟨?_, ?_, rfl⟩
  · intro hb
    simp [TRAKer.featurize, vmapGrads, hb]
  · intro b hb hlen hb1
    have hplen :
        (t.projector.project
            (projInput t ⟨(List.range b).map (outGrad batch),
                          DType.float32⟩)).data.length = b := by
      rw [project_data_length]
      simp [projInput, Tensor.to]
    have hrec : t.record_grads
        ⟨(List.range b).map (outGrad batch), DType.float32⟩ inds
          = Except.error PyError.runtimeError := by
      simp only [TRAKer.record_grads, hplen]
      rw [if_neg]
      rintro (h | h)
      · exact hlen h.symm
      · exact hb1 h
    simp [TRAKer.featurize, vmapGrads, hb, hrec]

/-- Witness for C4 at the concrete fixtures. -/
theorem featurize_shape_mismatch_witness :
    TRAKer.featurize ⟨true⟩ exTraker exOutGrad exFn2 exFn1 exFn2 exBadBatch
        [0] true
      = (exTraker, Except.error PyError.valueError) ∧
    TRAKer.featurize ⟨true⟩ exTraker exOutGrad exFn2 exFn1 exFn2 exBatch
        [0, 1, 2] true
      = (exTraker, Except.error PyError.runtimeError) :=
  ⟨(featurize_shape_mismatch_amended exTraker exOutGrad exFn2 exFn1 exFn2
      exBadBatch [0]).1 rfl,
   (featurize_shape_mismatch_amended exTraker exOutGrad exFn2 exFn1 exFn2
      exBatch [0, 1, 2]).2.1 2 rfl (by decide) (by decide)⟩

/-- C5: two successive `record_grads` calls with the same `inds` leave the
Feature Store exactly as a single call with the second call's data would —
each write overwrites the addressed rows, nothing is accumulated. -/
theorem record_grads_overwrite (t t1 t2 : TRAKer) (g1 g2 : Tensor)
    (inds : List ℕ)
    (h1 : t.record_grads g1 inds = Except.ok t1)
    (h2 : t1.record_grads g2 inds = Except.ok t2) :
    t.record_grads g2 inds = Except.ok t2 := by
  obtain ⟨dt, proj, n, gd, li, gr⟩ := t
  rw [record_grads_ok_iff] at h1
  obtain ⟨hl1, hb1, ht1⟩ := h1
  subst ht1
  rw [record_grads_ok_iff] at h2
  obtain ⟨hl2, hb2, ht2⟩ := h2
  subst ht2
  rw [record_grads_ok_iff]
  dsimp only [projInput, Tensor.to] at hl1 hb1 hl2 hb2 ⊢
  refine ⟨hl2, hb1, ?_⟩
  simp only [TRAKer.mk.injEq, Tensor.mk.injEq]
  refine ⟨trivial, trivial, trivial, trivial, trivial, ?_, trivial⟩
  apply writeRows_writeRows
  intro j hj
  rw [List.map_fst_zip _ _ (le_of_eq (broadcastRows_length _ _ hl1).symm)] at hj
  rw [List.map_fst_zip _ _ (le_of_eq (broadcastRows_length _ _ hl2).symm)]
  exact hj

/-- Witness for C5 at the concrete fixture. -/
theorem record_grads_overwrite_witness :
    exTraker.record_grads exGrads2 [0, 1] = Except.ok exTraker2 :=
  record_grads_overwrite exTraker exTraker1 exTraker2 exGrads1 exGrads2
    [0, 1] rfl rfl

/-- C6: `record_grads` changes no row outside `inds`, the store's row count
is unchanged, row widths stay `proj_dim`, and in the spec's concrete
scenario writing at indices `[3, 4]` of the all-zero 5-row store leaves
rows 0, 1, 2 zero. -/
theorem record_grads_frame (t t' : TRAKer) (g : Tensor) (inds : List ℕ)
    (h : t.record_grads g inds = Except.ok t') :
    (∀ j, j ∉ inds → t'.grads.data[j]? = t.grads.data[j]?) ∧
    t'.grads.data.length = t.grads.data.length ∧
    ((∀ r ∈ t.grads.data, r.length = t.projector.projDim) →
      ∀ r ∈ t'.grads.data, r.length = t.projector.projDim) ∧
    c6Traker.record_grads c6Grads [3, 4] = Except.ok c6Traker' ∧
    c6Traker'.grads.data[0]? = some [0] ∧
    c6Traker'.grads.data[1]? = some [0] ∧
    c6Traker'.grads.data[2]? = some [0] := by
  rw [record_grads_ok_iff] at h
  obtain ⟨hl, hb, ht⟩ := h
  subst ht
  refine ⟨?_, ?_, ?_, rfl, rfl, rfl, rfl⟩
  · intro j hj
    dsimp only
    apply writeRows_getElem?_of_not_mem
    rw [List.map_fst_zip _ _ (le_of_eq (broadcastRows_length _ _ hl).symm)]
    exact hj
  · exact writeRows_length _ _
  · intro hrows r hr
    dsimp only at hr
    refine writeRows_rows_length _ _ _ hrows ?_ r hr
    intro p hp
    obtain ⟨i, v⟩ := p
    exact project_rows_length _ _ _
      (mem_of_mem_broadcastRows _ _ _ (List.of_mem_zip hp).2)

/-- Witness for C6 at the concrete 5-row fixture. -/
theorem record_grads_frame_witness :
    c6Traker'.grads.data[0]? = c6Traker.grads.data[0]? ∧
    c6Traker'.grads.data.length = c6Traker.grads.data.length ∧
    ([1] : List ℤ).length = c6Traker.projector.projDim ∧
    c6Traker.record_grads c6Grads [3, 4] = Except.ok c6Traker' := by
  have h := record_grads_frame c6Traker c6Traker' c6Grads [3, 4] rfl
  exact ⟨h.1 0 (by decide), h.2.1, h.2.2.1 (by decide) [1] (by decide),
    h.2.2.2.1⟩

/-- C8 counterexample: with the source's defaults the Feature Store is
created by `ch.zeros` in the torch default dtype `float32`, which differs
from the `grad_dtype` construction parameter (default `float16`). -/
theorem store_dtype_cex :
    (TRAKer.init 1000 20 ProjectionType.normal 0 5 DType.float16).grads.dtype
        = DType.float32 ∧
    (TRAKer.init 1000 20 ProjectionType.normal 0 5 DType.float16).gradDtype
        = DType.float16 ∧
    (TRAKer.init 1000 20 ProjectionType.normal 0 5 DType.float16).grads.dtype
        ≠ (TRAKer.init 1000 20 ProjectionType.normal 0 5 DType.float16).gradDtype :=
  ⟨rfl, rfl, by decide⟩

/-- C8 amended: the Feature Store is created in the torch default dtype
`float32` (not `grad_dtype`); `record_grads` does convert the incoming
gradients to `grad_dtype` before projecting, and the write casts the
projected rows back to the store's own dtype, which never changes. -/
theorem store_dtype_amended (gradDim projDim projSeed trainSetSize : ℕ)
    (ty : ProjectionType) (dt : DType) (t t' : TRAKer) (g : Tensor)
    (inds : List ℕ) :
    (TRAKer.init gradDim projDim ty projSeed trainSetSize dt).grads.dtype
        = DType.float32 ∧
    (projInput t g).dtype = t.gradDtype ∧
    (projInput t g).data = g.data ∧
    (t.record_grads g inds = Except.ok t' →
      t'.grads.dtype = t.grads.dtype) := by
  refine ⟨rfl, rfl, rfl, ?_⟩
  intro h
  rw [record_grads_ok_iff] at h
  rw [h.2.2]

/-- Witness for C8 at the concrete fixture. -/
theorem store_dtype_witness :
    (TRAKer.init 1 1 ProjectionType.rademacher 0 2 DType.float16).grads.dtype
        = DType.float32 ∧
    (projInput exTraker exGrads1).dtype = exTraker.gradDtype ∧
    (projInput exTraker exGrads1).data = exGrads1.data ∧
    exTraker1.grads.dtype = exTraker.grads.dtype := by
  have h := store_dtype_amended 1 1 0 2 ProjectionType.rademacher
      DType.float16 exTraker exTraker1 exGrads1 [0, 1]
  exact ⟨h.1, h.2.1, h.2.2.1, h.2.2.2 rfl⟩

/-- C9 (projector modelled from the spec): two projectors agreeing on seed,
`grad_dim`, `proj_dim` and distribution produce bit-identical projection
data whatever their other configuration; and re-running an identical
successful `featurize` call is a no-op: the second run returns the same
state unchanged. -/
theorem projector_determinism_rerun (p1 p2 : BasicProjector) (m : Tensor)
    (env : Env) (t t' : TRAKer) (outGrad : List Tensor → ℕ → List ℤ)
    (lf : Tensor → Tensor → Tensor) (fm : Tensor → Tensor)
    (otl : Tensor → Tensor → Tensor) (batch : List Tensor) (inds : List ℕ)
    (v : Option Tensor)
    (hs : p1.seed = p2.seed) (hg : p1.gradDim = p2.gradDim)
    (hp : p1.projDim = p2.projDim) (hty : p1.projType = p2.projType)
    (h : TRAKer.featurize env t outGrad lf fm otl batch inds true
          = (t', Except.ok v)) :
    (p1.project m).data = (p2.project m).data ∧
    TRAKer.featurize env t' outGrad lf fm otl batch inds true
      = (t', Except.ok v) := by
  constructor
  · simp only [BasicProjector.project]
    rw [hs, hg, hp, hty]
  · obtain ⟨-, henv, hvnone, grads, hv, hr, lg, hl⟩ :=
      featurize_ok_elim env t outGrad lf fm otl batch inds true t' v h
    subst hvnone
    obtain ⟨dt, proj, n, gd, li, gr⟩ := t
    rw [record_grads_ok_iff] at hr
    obtain ⟨hl1, hb1, ht1⟩ := hr
    subst ht1
    apply featurize_eq_of env _ _ outGrad lf fm otl batch inds grads lg henv
      hv _ hl
    rw [record_grads_ok_iff]
    dsimp only [projInput, Tensor.to] at hl1 hb1 ⊢
    refine ⟨hl1, ?_, ?_⟩
    · simp only [writeRows_length]
      exact hb1
    · simp only [TRAKer.mk.injEq, Tensor.mk.injEq]
      exact ⟨trivial, trivial, trivial, trivial, trivial,
        (writeRows_writeRows _ _ _ (fun j hj => hj)).symm, trivial⟩

/-- Witness for C9: two projectors differing only in dtype, and a rerun of
the concrete successful featurize call. -/
theorem projector_determinism_rerun_witness :
    ((⟨0, 1, 1, ProjectionType.rademacher, DType.float16⟩ :
        BasicProjector).project exGrads1).data
      = ((⟨0, 1, 1, ProjectionType.rademacher, DType.float32⟩ :
        BasicProjector).project exGrads1).data ∧
    TRAKer.featurize ⟨true⟩ exTraker1 exOutGrad exFn2 exFn1 exFn2 exBatch
        [0, 1] true
      = (exTraker1, Except.ok none) :=
  projector_determinism_rerun
    ⟨0, 1, 1, ProjectionType.rademacher, DType.float16⟩
    ⟨0, 1, 1, ProjectionType.rademacher, DType.float32⟩ exGrads1 ⟨true⟩
    exTraker exTraker1 exOutGrad exFn2 exFn1 exFn2 exBatch [0, 1] none
    rfl rfl rfl rfl rfl

/-- C10: a `featurize` call that completes without raising returns `None`
(despite the declared `Tensor` return type); every TRAKer field other than
the store is unchanged, and the loss-gradient quantity computed by
`_get_loss_grad_functional` is discarded — replacing the loss capabilities
by any others yields the identical state and return value. -/
theorem featurize_returns_none (env : Env) (t t' : TRAKer)
    (outGrad : List Tensor → ℕ → List ℤ) (lf : Tensor → Tensor → Tensor)
    (fm : Tensor → Tensor) (otl : Tensor → Tensor → Tensor)
    (batch : List Tensor) (inds : List ℕ) (b : Bool) (v : Option Tensor)
    (h : TRAKer.featurize env t outGrad lf fm otl batch inds b
          = (t', Except.ok v)) :
    v = none ∧ t'.gradDtype = t.gradDtype ∧ t'.projector = t.projector ∧
    t'.trainSetSize = t.trainSetSize ∧ t'.gradDim = t.gradDim ∧
    t'.lastInd = t.lastInd ∧
    ∀ (lf2 : Tensor → Tensor → Tensor) (fm2 : Tensor → Tensor)
      (otl2 : Tensor → Tensor → Tensor),
      TRAKer.featurize env t outGrad lf2 fm2 otl2 batch inds b
        = (t', Except.ok none) := by
  obtain ⟨hb, henv, hvnone, grads, hv, hr, lg, hl⟩ :=
    featurize_ok_elim env t outGrad lf fm otl batch inds b t' v h
  subst hb
  subst hvnone
  obtain ⟨-, -, ht⟩ := (record_grads_ok_iff t grads inds t').1 hr
  obtain ⟨images, labels, hbatch⟩ := getLossGrad_ok_pair fm otl batch lg hl
  subst hbatch
  refine ⟨rfl, ?_, ?_, ?_, ?_, ?_, ?_⟩
  · rw [ht]
  · rw [ht]
  · rw [ht]
  · rw [ht]
  · rw [ht]
  · intro lf2 fm2 otl2
    exact featurize_eq_of env t t' outGrad lf2 fm2 otl2 _ inds grads
      (otl2 (fm2 images) labels) henv hv hr rfl

/-- Witness for C10 at the concrete successful featurize call. -/
theorem featurize_returns_none_witness :
    (none : Option Tensor) = none ∧
    exTraker1.gradDtype = exTraker.gradDtype ∧
    exTraker1.projector = exTraker.projector ∧
    exTraker1.trainSetSize = exTraker.trainSetSize ∧
    exTraker1.gradDim = exTraker.gradDim ∧
    exTraker1.lastInd = exTraker.lastInd ∧
    TRAKer.featurize ⟨true⟩ exTraker exOutGrad exFn2 exFn1 exFn2 exBatch
        [0, 1] true
      = (exTraker1, Except.ok none) := by
  have h := featurize_returns_none ⟨true⟩ exTraker exTraker1 exOutGrad exFn2
      exFn1 exFn2 exBatch [0, 1] true none rfl
  exact ⟨h.1, h.2.1, h.2.2.1, h.2.2.2.1, h.2.2.2.2.1, h.2.2.2.2.2.1,
    h.2.2.2.2.2.2 exFn2 exFn1 exFn2⟩

end Trak
